import Mathlib

/-!
Shallow embedding of the `Raiser` ink! contract (`src/lib.rs`).

Identities (`AccountId`) are modelled as natural numbers with equality;
balances (`Balance`, Rust `u128`) as natural numbers (no claim depends on
overflow behaviour). The two ink storage `Mapping`s are modelled as
association lists where `insert` prepends and `get` takes the first
(latest-inserted) match, which matches the observable semantics of
`ink::storage::Mapping`. A Rust `Vec` `push` appends at the end of a list.

The execution environment is an explicit `Env` record: the caller identity
(`self.env().caller()`), the transferred value
(`self.env().transferred_value()`) and whether the external value-transfer
capability (`self.env().transfer`) succeeds on this call.

Operations return the mutated state together with the `Result`; a Rust
panic (out-of-bounds `Vec` index) is modelled by returning `none` from an
`Option`-wrapped operation.
-/

namespace Raiser

abbrev AccountId := Nat

abbrev Balance := Nat

/-- The error enum of `src/lib.rs` (lines 106-114), constructor for
constructor. -/
inductive Error where
  | InsufficientBalance
  | LowAmount
  | NotContractOwner
  | AlreadyContributed
  | NotNextContributor
  | NotPaymentPhase
  | TransferError
deriving DecidableEq

/-- `type Result<T> = core::result::Result<T, Error>` from the source. -/
inductive Result (α : Type) where
  | ok : α → Result α
  | err : Error → Result α
deriving DecidableEq

/-- The `Raiser` storage struct (`src/lib.rs` lines 54-69), field for
field. -/
structure State where
  total_supply : Balance
  address_to_amount_funded : List (AccountId × (Balance × Bool))
  contributed : List (AccountId × Bool)
  balance : List (AccountId × Balance)
  min_amount : Balance
  owner : AccountId
  contributors : List AccountId
  contributors_count : Nat
  requests : List (AccountId × Balance)
  completed_payouts : Nat
  payout_history : List (AccountId × Balance)
  max_contributors : Nat
  contribution_cycle : Nat
deriving DecidableEq

/-- The host environment of a single call: caller identity, transferred
value, and whether the external transfer capability succeeds. -/
structure Env where
  caller : AccountId
  transferred_value : Balance
  transfer_ok : Bool
deriving DecidableEq

/-- `Mapping::get`: first (latest-inserted) match in the association
list. -/
def mapGet {α : Type} (m : List (AccountId × α)) (k : AccountId) : Option α :=
  match m with
  | [] => none
  | (q, v) :: rest => if q = k then some v else mapGet rest k

/-- `Mapping::insert`: the new entry shadows any older one. -/
def mapInsert {α : Type} (m : List (AccountId × α)) (k : AccountId) (v : α) :
    List (AccountId × α) :=
  (k, v) :: m

/-- The `for` loop of `balance_of` (`src/lib.rs` lines 440-447): scan the
`balance` vector front to back, return the first matching entry, else 0. -/
def lookupBal (m : List (AccountId × Balance)) (k : AccountId) : Balance :=
  match m with
  | [] => 0
  | (q, v) :: rest => if q = k then v else lookupBal rest k

/-- Constructor `new` (`src/lib.rs` lines 138-157). -/
def new (caller : AccountId) : State :=
  { owner := caller
    address_to_amount_funded := []
    contributed := []
    total_supply := 0
    contributors := []
    contributors_count := 0
    requests := []
    completed_payouts := 0
    payout_history := []
    max_contributors := 0
    contribution_cycle := 1
    min_amount := 50
    balance := [] }

/-- `set_max_contributors` (`src/lib.rs` lines 181-188). -/
def set_max_contributors (env : Env) (new_max : Nat) (s : State) :
    Result Unit × State :=
  if env.caller ≠ s.owner then (Result.err Error.NotContractOwner, s)
  else (Result.ok (), { s with max_contributors := new_max })

/-- `get_max_contributors` (`src/lib.rs` lines 200-202). -/
def get_max_contributors (s : State) : Nat :=
  s.max_contributors

/-- `balance_of` (`src/lib.rs` lines 440-447). -/
def balance_of (s : State) (owner : AccountId) : Balance :=
  lookupBal s.balance owner

/-- `contribute` (`src/lib.rs` lines 218-249), updates in source order. -/
def contribute (env : Env) (s : State) : Result Unit × State :=
  if (mapGet s.contributed env.caller).isSome then
    (Result.err Error.AlreadyContributed, s)
  else
    let value := env.transferred_value
    if value < s.min_amount then
      (Result.err Error.LowAmount, s)
    else
      let funded_amount := balance_of s env.caller
      (Result.ok (),
        { s with
          contributors_count := s.contributors_count + 1
          contributors := s.contributors ++ [env.caller]
          contributed := mapInsert s.contributed env.caller true
          address_to_amount_funded :=
            mapInsert s.address_to_amount_funded env.caller
              (funded_amount + value, true)
          balance := s.balance ++ [(env.caller, funded_amount + value)]
          total_supply := s.total_supply + value })

/-- `request_token` (`src/lib.rs` lines 277-293). -/
def request_token (env : Env) (s : State) : Result Unit × State :=
  if s.contributors_count = s.max_contributors then
    if s.contributors.head? = some env.caller then
      (Result.ok (),
        { s with requests := s.requests ++ [(env.caller, s.total_supply)] })
    else (Result.err Error.NotNextContributor, s)
  else (Result.err Error.NotPaymentPhase, s)

/-- `all_paid` (`src/lib.rs` lines 406-414): the loop over `contributors`
with `unwrap_or((0, false))`. -/
def all_paid (s : State) : Bool :=
  s.contributors.all fun key =>
    ((mapGet s.address_to_amount_funded key).getD (0, false)).2

/-- `next_contribution_cycle` (`src/lib.rs` lines 385-397): nested guards
exactly as in the source. -/
def next_contribution_cycle (s : State) : State :=
  if all_paid s then
    if s.payout_history.length = s.contributors_count then
      { s with
        address_to_amount_funded := []
        payout_history := []
        contributors_count := 0
        contribution_cycle := s.contribution_cycle + 1
        completed_payouts := 0 }
    else s
  else s

/-- `approve_request` (`src/lib.rs` lines 307-338). The `caller` checked
against the owner is the message ARGUMENT (the `self.env().caller()` line
is commented out in the source); the environment's actual caller is never
consulted. `self.requests[0]` on an empty vector and
`self.contributors.remove(0)` on an empty vector are Rust panics, modelled
as `none`. -/
def approve_request (env : Env) (caller : AccountId) (s : State) :
    Option (Result Unit × State) :=
  if caller ≠ s.owner then some (Result.err Error.NotContractOwner, s)
  else
    match s.requests.head? with
    | none => none
    | some (requester, amount) =>
      if env.transfer_ok then
        match s.contributors with
        | [] => none
        | _ :: rest =>
          let s1 : State :=
            { s with
              requests := []
              contributors := rest
              completed_payouts := s.completed_payouts + 1
              payout_history := s.payout_history ++ [(requester, amount)]
              contributed := [] }
          some (Result.ok (), next_contribution_cycle s1)
      else some (Result.err Error.TransferError, s)

/-- `get_next_requester` (`src/lib.rs` lines 345-353). -/
def get_next_requester (s : State) : Option AccountId :=
  s.contributors.head?

/-- `get_completed_payouts` (`src/lib.rs` lines 362-364). -/
def get_completed_payouts (s : State) : Nat :=
  s.completed_payouts

/-- `get_payout_history` (`src/lib.rs` lines 373-375). -/
def get_payout_history (s : State) : List (AccountId × Balance) :=
  s.payout_history

/-- `get_total_supply` (`src/lib.rs` lines 418-422). -/
def get_total_supply (s : State) : Balance :=
  s.total_supply

/-- `total_contributors` (`src/lib.rs` lines 430-432). -/
def total_contributors (s : State) : Nat :=
  s.contributors_count

/-! Concrete identities and scenario traces used by several theorems. -/

def opr : AccountId := 0

def alice : AccountId := 1

def bob : AccountId := 2

def envOf (c : AccountId) (v : Balance) (ok : Bool) : Env :=
  { caller := c, transferred_value := v, transfer_ok := ok }

/-- Quota-1 scenario: fresh ledger deployed by the operator. -/
def sq1a : State := new opr

/-- Quota-1 scenario: the operator sets the quota to 1. -/
def sq1b : State := (set_max_contributors (envOf opr 0 true) 1 sq1a).2

/-- Quota-1 scenario: Alice contributes 100. -/
def sq1c : State := (contribute (envOf alice 100 true) sq1b).2

/-- Quota-1 scenario: Alice requests the payout. -/
def sq1d : State := (request_token (envOf alice 0 true) sq1c).2

/-- Quota-1 scenario: the operator approves; the external transfer of 100
to Alice succeeds. -/
def q1approve : Option (Result Unit × State) :=
  approve_request (envOf opr 0 true) opr sq1d

/-- Quota-1 scenario: final state after the successful approval. -/
def sq1e : State := (q1approve.getD (Result.err Error.TransferError, sq1d)).2

/-- Quota-2 scenario: quota set to 2, then Alice and Bob contribute 100
each, Alice requests, the operator approves with a successful transfer. -/
def sq2a : State := (set_max_contributors (envOf opr 0 true) 2 (new opr)).2

def sq2b : State := (contribute (envOf alice 100 true) sq2a).2

def sq2c : State := (contribute (envOf bob 100 true) sq2b).2

def sq2d : State := (request_token (envOf alice 0 true) sq2c).2

def q2approve : Option (Result Unit × State) :=
  approve_request (envOf opr 0 true) opr sq2d

def sq2e : State := (q2approve.getD (Result.err Error.TransferError, sq2d)).2

/-! Small helper lemmas shared by several claims. -/

theorem next_cycle_contributed (s : State) :
    (next_contribution_cycle s).contributed = s.contributed := by
  unfold next_contribution_cycle
  split
  · split <;> rfl
  · rfl

theorem next_cycle_total_supply (s : State) :
    (next_contribution_cycle s).total_supply = s.total_supply := by
  unfold next_contribution_cycle
  split
  · split <;> rfl
  · rfl

theorem next_cycle_balance (s : State) :
    (next_contribution_cycle s).balance = s.balance := by
  unfold next_contribution_cycle
  split
  · split <;> rfl
  · rfl

/-- C1: the claim's end-to-end quota-1 scenario is false on the code at
its own concrete input: after the approval the completed-payout counter is
0 and the payout history is empty (rollover fired and cleared both), not
1 and [(Alice, 100)]. -/
theorem c1_counterexample :
    sq1e.contributors = [] ∧ sq1e.contribution_cycle = 2 ∧
    ¬ (sq1e.completed_payouts = 1 ∧ sq1e.payout_history = [(alice, 100)]) := by
  decide

/-- C1 (amended): quota 1; Alice contributes 100 (pool becomes 100), her
payout request succeeds, the operator's approval with a successful
transfer of 100 succeeds; afterwards the queue is empty and the cycle
counter is 2, but — because rollover fires immediately (all_paid holds
vacuously over the emptied queue and history length 1 equals participant
count 1) and clears the per-cycle fields — the completed-payout counter is
0 and the payout history is empty. -/
theorem c1_amended :
    (set_max_contributors (envOf opr 0 true) 1 sq1a).1 = Result.ok () ∧
    (contribute (envOf alice 100 true) sq1b).1 = Result.ok () ∧
    sq1c.total_supply = 100 ∧
    (request_token (envOf alice 0 true) sq1c).1 = Result.ok () ∧
    q1approve = some (Result.ok (), sq1e) ∧
    sq1e.contributors = [] ∧
    sq1e.completed_payouts = 0 ∧
    sq1e.payout_history = [] ∧
    sq1e.contribution_cycle = 2 := by
  decide

/-- C2: false on the code at a concrete input: after Alice's successful
contribution of 100 (queue nonempty, no payout yet this cycle) her
participant record is (100, true) — the flag is stored as true, not
false — and consequently all_paid already returns true. -/
theorem c2_counterexample :
    (contribute (envOf alice 100 true) sq1b).1 = Result.ok () ∧
    mapGet sq1c.address_to_amount_funded alice = some (100, true) ∧
    sq1c.contributors = [alice] ∧
    sq1c.payout_history = [] ∧
    sq1c.completed_payouts = 0 ∧
    all_paid sq1c = true := by
  decide

/-- C2 (amended): every successful contribute stores the participant
record with flag = true (the code uses the boolean as a has-contributed
marker, not a paid marker); consequently all_paid is preserved by
successful contributions, so in a state reached only by contributions
(where all_paid already holds, e.g. vacuously on the fresh ledger)
all_paid returns true even before any payout. -/
theorem c2_amended (env : Env) (s : State)
    (h1 : (mapGet s.contributed env.caller).isSome = false)
    (h2 : ¬ env.transferred_value < s.min_amount) :
    mapGet (contribute env s).2.address_to_amount_funded env.caller
      = some (balance_of s env.caller + env.transferred_value, true) ∧
    (all_paid s = true → all_paid (contribute env s).2 = true) := by
  unfold contribute
  simp only [h1, Bool.false_eq_true, if_false, h2, if_neg, ite_false]
  constructor
  · simp [mapInsert, mapGet]
  · intro hp
    unfold all_paid at hp ⊢
    simp only [List.all_append, List.all_cons, List.all_nil, Bool.and_true,
      Bool.and_eq_true, List.all_eq_true] at hp ⊢
    refine ⟨fun k hk => ?_, ?_⟩
    · by_cases hkc : env.caller = k
      · simp [mapInsert, mapGet, hkc]
      · simpa [mapInsert, mapGet, hkc] using hp k hk
    · simp [mapInsert, mapGet]

/-- C2 witness: the amended statement instantiated after Alice's first
contribution on the quota-1 trace. -/
theorem c2_amended_witness :
    mapGet (contribute (envOf alice 100 true) sq1b).2.address_to_amount_funded alice
      = some (balance_of sq1b alice + 100, true) ∧
    (all_paid sq1b = true → all_paid (contribute (envOf alice 100 true) sq1b).2 = true) :=
  c2_amended (envOf alice 100 true) sq1b (by decide) (by decide)

/-- C3: the code checks only the `caller` ARGUMENT of approve_request
against the owner (the environment-caller line is commented out), so an
invocation whose actual environment caller is Bob — not the operator —
that passes the operator's identity as the argument succeeds with the
very same effect as the operator's own call, instead of failing with
NotOperator. -/
theorem c3_spoofable_approval :
    (envOf bob 0 true).caller ≠ sq1d.owner ∧
    approve_request (envOf bob 0 true) opr sq1d = some (Result.ok (), sq1e) := by
  decide

/-- C5: with the operator as caller and an empty pending-request slot, the
code indexes `requests[0]` out of bounds and panics (modelled as `none`)
instead of returning a NoPendingRequest error — indeed the source's Error
enum has no such variant. -/
theorem c5_empty_requests_crash :
    approve_request (envOf opr 0 true) opr (new opr) = none := by
  decide

/-- C4: when the caller argument equals the owner, the pending-request
slot is non-empty and the external transfer fails, approve_request returns
the TransferError and the resulting state is the input state itself — every
component (queue, history, pending request, pool total, counters, maps,
cycle) unchanged. -/
theorem c4_transfer_failure_rollback (env : Env) (caller : AccountId)
    (s : State) (p : AccountId × Balance)
    (h1 : caller = s.owner) (h2 : s.requests.head? = some p)
    (h3 : env.transfer_ok = false) :
    approve_request env caller s = some (Result.err Error.TransferError, s) := by
  unfold approve_request
  rw [h2]
  simp [h1, h3]

/-- C4 witness: transfer failure on the quota-1 trace right after Alice's
request leaves the state bit-for-bit unchanged. -/
theorem c4_witness :
    approve_request (envOf opr 0 false) opr sq1d
      = some (Result.err Error.TransferError, sq1d) :=
  c4_transfer_failure_rollback (envOf opr 0 false) opr sq1d (alice, 100)
    (by decide) (by decide) (by decide)

/-- C6: false on the code after an intervening approval: on the quota-2
trace Bob contributed 100 this cycle, the operator's approval succeeded
without rollover (cycle still 1), and yet Bob's second contribute in the
same cycle succeeds instead of failing with AlreadyContributed, because
the approval reset the `contributed` mapping. -/
theorem c6_counterexample :
    (contribute (envOf bob 100 true) sq2b).1 = Result.ok () ∧
    q2approve = some (Result.ok (), sq2e) ∧
    sq2e.contribution_cycle = 1 ∧
    (contribute (envOf bob 70 true) sq2e).1 = Result.ok () := by
  decide

/-- C6 (amended): while an identity's entry is present in the
`contributed` mapping, a second contribute from it fails with
AlreadyContributed and leaves the whole state (in particular the pool
total) unchanged; but every successful approve_payout resets the
`contributed` mapping to empty, so after an intervening approval in the
same cycle a previous contributor can contribute again before rollover. -/
theorem c6_amended :
    (∀ (env : Env) (s : State),
        (mapGet s.contributed env.caller).isSome = true →
        contribute env s = (Result.err Error.AlreadyContributed, s)) ∧
    (∀ (env : Env) (c : AccountId) (s s2 : State),
        approve_request env c s = some (Result.ok (), s2) →
        s2.contributed = []) := by
  constructor
  · intro env s h
    unfold contribute
    simp [h]
  · intro env c s s2 h
    unfold approve_request at h
    by_cases hc : c ≠ s.owner
    · simp [hc] at h
    · simp only [hc, if_false, ite_false] at h
      cases hh : s.requests.head? with
      | none => rw [hh] at h; exact absurd h (by simp)
      | some p =>
        rw [hh] at h
        obtain ⟨requester, amount⟩ := p
        by_cases ht : env.transfer_ok
        · simp only [ht, if_true, ite_true] at h
          cases hcs : s.contributors with
          | nil => rw [hcs] at h; exact absurd h (by simp)
          | cons a rest =>
            rw [hcs] at h
            simp only [Option.some.injEq, Prod.mk.injEq] at h
            rw [← h.2, next_cycle_contributed]
        · simp [ht] at h

/-- C6 witness: the amended statement at concrete inputs — Alice's repeat
contribution is rejected with the state unchanged, and the quota-1
approval leaves an empty `contributed` mapping. -/
theorem c6_witness :
    contribute (envOf alice 100 true) sq1c
      = (Result.err Error.AlreadyContributed, sq1c) ∧
    sq1e.contributed = [] :=
  ⟨c6_amended.1 (envOf alice 100 true) sq1c (by decide),
   c6_amended.2 (envOf opr 0 true) opr sq1d sq1e (by decide)⟩

/-- C7: false on the code at a concrete input: on the quota-1 trace the
pool total is 100 before the approval, the approved transfer moves 100 to
Alice and succeeds, yet the pool total afterwards is still 100, not 0 —
approve_request never decreases total_supply. -/
theorem c7_counterexample :
    sq1d.total_supply = 100 ∧
    sq1d.requests = [(alice, 100)] ∧
    q1approve = some (Result.ok (), sq1e) ∧
    sq1e.total_supply = 100 ∧
    sq1e.total_supply ≠ sq1d.total_supply - 100 := by
  decide

/-- C7 (amended): each successful contribute increases the pool total by
the contributed amount, but approve_payout never modifies the pool total —
the code does not subtract the paid-out amount, so total_supply is a
running sum of all contributions ever made, not of funds currently held. -/
theorem c7_amended :
    (∀ (env : Env) (s : State),
        (contribute env s).2.total_supply =
          (if (mapGet s.contributed env.caller).isSome
              ∨ env.transferred_value < s.min_amount
           then s.total_supply
           else s.total_supply + env.transferred_value)) ∧
    (∀ (env : Env) (c : AccountId) (s : State),
        ((approve_request env c s).map fun p => p.2.total_supply).getD
            s.total_supply
          = s.total_supply) := by
  constructor
  · intro env s
    unfold contribute
    by_cases h1 : (mapGet s.contributed env.caller).isSome
    · simp [h1]
    · by_cases h2 : env.transferred_value < s.min_amount
      · simp [h1, h2]
      · simp [h1, h2]
  · intro env c s
    unfold approve_request
    by_cases hc : c ≠ s.owner
    · simp [hc]
    · simp only [hc, if_false, ite_false]
      cases hh : s.requests.head? with
      | none => simp
      | some p =>
        obtain ⟨requester, amount⟩ := p
        by_cases ht : env.transfer_ok
        · simp only [ht, if_true, ite_true]
          cases hcs : s.contributors with
          | nil => simp
          | cons a rest => simp [next_cycle_total_supply]
        · simp [ht]

/-- C8: false on the code at a concrete input: the quota is set to 1 once
(never reset downward), Alice and then Bob both contribute successfully,
and the queue length becomes 2 > 1 — contribute grows the queue past the
quota. -/
theorem c8_counterexample :
    sq1c.max_contributors = 1 ∧
    (contribute (envOf bob 100 true) sq1c).1 = Result.ok () ∧
    (contribute (envOf bob 100 true) sq1c).2.contributors.length = 2 ∧
    ¬ (contribute (envOf bob 100 true) sq1c).2.contributors.length
        ≤ (contribute (envOf bob 100 true) sq1c).2.max_contributors := by
  decide

/-- C8 (amended): contribute imposes no bound relative to the quota: it
appends the caller to the queue whenever the caller has no `contributed`
entry and the value meets the minimum, regardless of max_contributors, so
the queue length can exceed the quota (the quota is only used as an exact
equality gate inside request_token). -/
theorem c8_amended (env : Env) (s : State) :
    (contribute env s).2.contributors.length =
      (if (mapGet s.contributed env.caller).isSome
          ∨ env.transferred_value < s.min_amount
       then s.contributors.length
       else s.contributors.length + 1) := by
  unfold contribute
  by_cases h1 : (mapGet s.contributed env.caller).isSome
  · simp [h1]
  · by_cases h2 : env.transferred_value < s.min_amount
    · simp [h1, h2]
    · simp [h1, h2]

/-- C9: next_contribution_cycle performs the rollover — clearing the
participant records and the payout history, resetting the participant
count and the completed-payout counter to 0 and incrementing the cycle
counter by exactly 1 — exactly when all_paid() holds and the
payout-history length equals the participant count; in every other state
it changes nothing. -/
theorem c9_next_cycle_rollover (s : State) :
    (all_paid s = true ∧ s.payout_history.length = s.contributors_count →
      next_contribution_cycle s =
        { s with
          address_to_amount_funded := []
          payout_history := []
          contributors_count := 0
          contribution_cycle := s.contribution_cycle + 1
          completed_payouts := 0 }) ∧
    (¬ (all_paid s = true ∧ s.payout_history.length = s.contributors_count) →
      next_contribution_cycle s = s) := by
  constructor
  · rintro ⟨h1, h2⟩
    unfold next_contribution_cycle
    simp [h1, h2]
  · intro h
    unfold next_contribution_cycle
    by_cases h1 : all_paid s = true
    · by_cases h2 : s.payout_history.length = s.contributors_count
      · exact absurd ⟨h1, h2⟩ h
      · simp [h1, h2]
    · simp [h1]

/-- C9 witness: both branches at concrete states — the fresh ledger
satisfies the rollover condition vacuously (cycle 1 becomes 2, matching
the source's own next_contribution_cycle test), while the quota-2
post-approval state (history length 1 ≠ participant count 2) is left
unchanged. -/
theorem c9_witness :
    next_contribution_cycle (new opr) =
      { new opr with
        address_to_amount_funded := []
        payout_history := []
        contributors_count := 0
        contribution_cycle := (new opr).contribution_cycle + 1
        completed_payouts := 0 } ∧
    next_contribution_cycle sq2e = sq2e :=
  ⟨(c9_next_cycle_rollover (new opr)).1 ⟨by decide, by decide⟩,
   (c9_next_cycle_rollover sq2e).2 (by decide)⟩

/-- C10: balance_of returns the earliest-inserted matching entry of the
`balance` vector — appending a fresh entry for an already-present key
never changes balance_of — and no operation ever removes entries from that
vector (approvals and rollover leave it untouched; contribute only
appends). Concretely, on the quota-2 trace where the approval cleared the
contributed guard, Bob's second contribution of 70 appends (Bob, 170) and
records 170 in the funded mapping, yet balance_of still answers 100, the
amount of his first-ever contribution. -/
theorem c10_balance_of_stale :
    (∀ (m : List (AccountId × Balance)) (k : AccountId) (v : Balance),
        lookupBal (m ++ [(k, v)]) k =
          (if (mapGet m k).isSome then lookupBal m k else v)) ∧
    (∀ (env : Env) (c : AccountId) (s : State),
        ((approve_request env c s).map fun p => p.2.balance).getD s.balance
          = s.balance) ∧
    (∀ s : State, (next_contribution_cycle s).balance = s.balance) ∧
    (∀ (env : Env) (n : Nat) (s : State),
        (set_max_contributors env n s).2.balance = s.balance) ∧
    (∀ (env : Env) (s : State),
        (request_token env s).2.balance = s.balance) ∧
    (∀ (env : Env) (s : State),
        (contribute env s).2.balance =
          (if (mapGet s.contributed env.caller).isSome
              ∨ env.transferred_value < s.min_amount
           then s.balance
           else s.balance ++
             [(env.caller, balance_of s env.caller + env.transferred_value)])) ∧
    ((contribute (envOf bob 70 true) sq2e).1 = Result.ok () ∧
     (contribute (envOf bob 70 true) sq2e).2.balance
        = [(alice, 100), (bob, 100), (bob, 170)] ∧
     mapGet (contribute (envOf bob 70 true) sq2e).2.address_to_amount_funded bob
        = some (170, true) ∧
     balance_of (contribute (envOf bob 70 true) sq2e).2 bob = 100) := by
  refine ⟨?_, ?_, next_cycle_balance, ?_, ?_, ?_, by decide⟩
  · intro m k v
    induction m with
    | nil => simp [lookupBal, mapGet]
    | cons hd tl ih =>
      obtain ⟨q, w⟩ := hd
      by_cases hq : q = k
      · simp [lookupBal, mapGet, hq]
      · simp [lookupBal, mapGet, hq, ih]
  · intro env c s
    unfold approve_request
    by_cases hc : c ≠ s.owner
    · simp [hc]
    · simp only [hc, if_false, ite_false]
      cases hh : s.requests.head? with
      | none => simp
      | some p =>
        obtain ⟨requester, amount⟩ := p
        by_cases ht : env.transfer_ok
        · simp only [ht, if_true, ite_true]
          cases hcs : s.contributors with
          | nil => simp
          | cons a rest => simp [next_cycle_balance]
        · simp [ht]
  · intro env n s
    unfold set_max_contributors
    by_cases h : env.caller ≠ s.owner <;> simp [h]
  · intro env s
    unfold request_token
    by_cases h1 : s.contributors_count = s.max_contributors
    · by_cases h2 : s.contributors.head? = some env.caller
      · simp [h1, h2]
      · simp [h1, h2]
    · simp [h1]
  · intro env s
    unfold contribute
    by_cases h1 : (mapGet s.contributed env.caller).isSome
    · simp [h1]
    · by_cases h2 : env.transferred_value < s.min_amount
      · simp [h1, h2]
      · simp [h1, h2]

end Raiser
